import Mathlib

/-!
# Verification of the smart-home dialogue orchestration core

Shallow embedding of the repository's Python sources:

* `action_executor.py` — the action dispatcher (`execute_action`) with its
  bounded retry loop;
* `main.py` — the schema registry constants, the completion client
  (`SLMClient.invoke`) and the dialogue orchestrator (`TextOrchestrator`).

Network effects are modelled as explicit inputs: the HTTP outcome of each
delivery attempt is a function `Nat → AttemptOutcome`, the completion
endpoint's reply is a value handed to `process_utterance`, and the random
source used by the simulated backend is an explicit record of the draws.
-/

namespace FG

/-! ## Action dispatcher (`src/python/action_executor.py`) -/

/-- The body of an HTTP response, as `action_executor.py` sees it after
`response.json()` / `response.text`: a JSON object (only its string-valued
fields matter to message extraction), some other JSON value, or plain text. -/
inductive RespBody where
  | jsonDict (fields : List (String × String))
  | jsonOther
  | text (s : String)
deriving DecidableEq, Repr

/-- Outcome of one `requests.post` delivery attempt: an HTTP response with a
status code and a body, or a `requests.RequestException` with its message. -/
inductive AttemptOutcome where
  | http (status : Nat) (body : RespBody)
  | transportError (msg : String)
deriving DecidableEq, Repr

/-- The `ActionExecutionResult` dataclass of `action_executor.py`. -/
structure ActionExecutionResult where
  ok : Bool
  status_code : Option Nat
  message : String
  request_id : String
  raw_response : Option RespBody
deriving DecidableEq, Repr

/-- The `MAX_RETRIES` constant of `action_executor.py`. -/
def MAX_RETRIES : Nat := 2

/-- Leading Python/JSON whitespace removed from a character list. -/
def dropWs : List Char → List Char
  | c :: cs => if c = ' ' ∨ c = '\t' ∨ c = '\n' ∨ c = '\r' then dropWs cs else c :: cs
  | [] => []

/-- Python `str.strip()`: whitespace removed from both ends. -/
def pyStrip (s : String) : String := String.mk ((dropWs (dropWs s.data).reverse).reverse)

/-- Python `str.lower()` (ASCII case folding). -/
def pyLower (s : String) : String := String.mk (s.data.map Char.toLower)

/-- Success-message extraction of the 2xx branch of `execute_action`:
`message` field, else `title` field, else `"Action accepted"`; for a
non-JSON body, the stripped text truncated to 200 characters when
non-empty. -/
def extractMessage : RespBody → String
  | .jsonDict fields =>
    match fields.lookup "message" with
    | some v => v
    | none =>
      match fields.lookup "title" with
      | some v => v
      | none => "Action accepted"
  | .jsonOther => "Action accepted"
  | .text s =>
    if pyStrip s ≠ "" then String.mk ((pyStrip s).data.take 200) else "Action accepted"

/-- The attempt loop of `execute_action` (`for attempt in
range(1, MAX_RETRIES + 2)`), instrumented with the number of the attempt on
which the loop terminated.  `outcomes n` is what the `n`-th `requests.post`
does.  `fuel` counts the loop iterations still available (the loop body
runs while `fuel > 0`, i.e. while `attempt ≤ MAX_RETRIES + 1`); at `fuel =
0` the loop is exhausted and control falls through to the final return.
Returns the result together with the number of attempts performed. -/
def executeLoop (request_id : String) (outcomes : Nat → AttemptOutcome) :
    Nat → Nat → String → ActionExecutionResult × Nat
  | 0, attempt, lastError => (⟨false, none, lastError, request_id, none⟩, attempt - 1)
  | fuel + 1, attempt, _lastError =>
    match outcomes attempt with
    | .http status body =>
      if 200 ≤ status ∧ status < 300 then
        (⟨true, some status, extractMessage body, request_id, some body⟩, attempt)
      else
        let lastError := "HTTP " ++ toString status
        if 500 ≤ status ∧ attempt ≤ MAX_RETRIES then
          executeLoop request_id outcomes fuel (attempt + 1) lastError
        else
          (⟨false, some status, lastError, request_id, some body⟩, attempt)
    | .transportError msg =>
      if attempt ≤ MAX_RETRIES then
        executeLoop request_id outcomes fuel (attempt + 1) msg
      else
        -- `break`, then the final return after the loop
        (⟨false, none, msg, request_id, none⟩, attempt)

/-- Model of `execute_action` from `action_executor.py`, with the fresh `uuid4` and the
per-attempt HTTP outcomes passed in explicitly.  `last_error` starts as
`"unknown_error"` and the loop starts at attempt 1 with `MAX_RETRIES + 1`
iterations available. -/
def execute_action (request_id : String) (outcomes : Nat → AttemptOutcome) :
    ActionExecutionResult × Nat :=
  executeLoop request_id outcomes (MAX_RETRIES + 1) 1 "unknown_error"

/-! ## JSON / Python values

The argument mappings produced by the model and consumed by the orchestrator
are Python dictionaries whose values come from decoded JSON.  `PyVal` is the
corresponding value type (`None`, `bool`, `int`, `str`, lists, objects). -/

/-- A decoded JSON / Python value as it flows through `main.py`.  A
non-integer JSON number (one with a fraction or exponent, or the Python
extensions `Infinity`/`-Infinity`/`NaN`) is kept as its source literal in
the `float` constructor: no claim observes float arithmetic or Python's
float formatting, only the value-vs-exception classification of the
parse. -/
inductive PyVal where
  | null
  | bool (b : Bool)
  | int (n : Int)
  | str (s : String)
  | list (xs : List PyVal)
  | dict (xs : List (String × PyVal))
  | float (lit : String)

/-- An argument mapping: a Python `dict` keyed by argument name. -/
abbrev Arguments := List (String × PyVal)

mutual

/-- Python `json.dumps` on a value (as used to serialize tool-call arguments into
history): default separators, i.e. `", "` between items and `": "` after
keys. -/
def PyVal.dump : PyVal → String
  | .null => "null"
  | .bool b => if b then "true" else "false"
  | .int n => toString n
  | .str s => "\"" ++ s ++ "\""
  | .list xs => "[" ++ dumpList xs ++ "]"
  | .dict xs => "\x7b" ++ dumpDict xs ++ "\x7d"
  | .float lit => lit

/-- Elements of a JSON array, `", "`-separated. -/
def dumpList : List PyVal → String
  | [] => ""
  | [v] => v.dump
  | v :: vs => v.dump ++ ", " ++ dumpList vs

/-- Members of a JSON object, `", "`-separated, keys quoted. -/
def dumpDict : List (String × PyVal) → String
  | [] => ""
  | [kv] => "\"" ++ kv.1 ++ "\": " ++ kv.2.dump
  | kv :: kvs => "\"" ++ kv.1 ++ "\": " ++ kv.2.dump ++ ", " ++ dumpDict kvs

end

mutual

/-- Python `str()` as applied by `str.format` when substituting a value into
a template placeholder; container elements are rendered with `repr` (strings
quoted), as Python does. -/
def PyVal.pyStr : PyVal → String
  | .null => "None"
  | .bool b => if b then "True" else "False"
  | .int n => toString n
  | .str s => s
  | .list xs => "[" ++ reprList xs ++ "]"
  | .dict xs => "\x7b" ++ reprDict xs ++ "\x7d"
  | .float lit => lit

/-- Comma-separated `repr`s of list elements. -/
def reprList : List PyVal → String
  | [] => ""
  | [.str s] => "'" ++ s ++ "'"
  | [v] => v.pyStr
  | .str s :: vs => "'" ++ s ++ "', " ++ reprList vs
  | v :: vs => v.pyStr ++ ", " ++ reprList vs

/-- Comma-separated `repr`s of dict items. -/
def reprDict : List (String × PyVal) → String
  | [] => ""
  | [(k, .str s)] => "'" ++ k ++ "': '" ++ s ++ "'"
  | [(k, v)] => "'" ++ k ++ "': " ++ v.pyStr
  | (k, .str s) :: kvs => "'" ++ k ++ "': '" ++ s ++ "', " ++ reprDict kvs
  | (k, v) :: kvs => "'" ++ k ++ "': " ++ v.pyStr ++ ", " ++ reprDict kvs

end

/-- Python `==` between a value and a string literal: only a `str` of the
same characters compares equal. -/
def PyVal.eqStr : PyVal → String → Bool
  | .str s, t => s == t
  | _, _ => false

/-- Zero test on a JSON number literal's mantissa (`0`, `0.00`, `-0e5`,
…), giving the Python truthiness of the parsed float; constants such as
`Infinity`/`NaN` have no digits and are truthy.  Floating-point underflow
(e.g. `1e-999`, which Python rounds to the falsy `0.0`) is not modelled;
no claim observes it. -/
def jsonNumIsZero (lit : String) : Bool :=
  let m := lit.data.takeWhile fun c => c ≠ 'e' ∧ c ≠ 'E'
  (m.any fun c => c.isDigit) && (m.all fun c => !c.isDigit || c = '0')

/-- Python truthiness of a value (`if room:` etc.). -/
def PyVal.truthy : PyVal → Bool
  | .null => false
  | .bool b => b
  | .int n => n != 0
  | .str s => s != ""
  | .list xs => !xs.isEmpty
  | .dict xs => !xs.isEmpty
  | .float lit => !jsonNumIsZero lit

/-! ## Schema registry constants (`src/python/main.py`) -/

/-- The `FUNCTION_REQUIRED_ARGS` table of `main.py`. -/
def FUNCTION_REQUIRED_ARGS : List (String × List String) :=
  [("toggle_lights", ["room", "state"]),
   ("set_thermostat", ["temperature"]),
   ("lock_door", ["door", "state"]),
   ("get_device_status", ["device_type"]),
   ("set_scene", ["scene"]),
   ("intent_unclear", [])]

/-- The `INDIVIDUAL_SLOT_PROMPTS` table of `main.py`. -/
def INDIVIDUAL_SLOT_PROMPTS : List (String × List (String × String)) :=
  [("toggle_lights",
    [("room", "which room (living room, bedroom, kitchen, bathroom, office, or hallway)"),
     ("state", "whether to turn them on or off")]),
   ("set_thermostat",
    [("temperature", "what temperature (60-80°F)"),
     ("mode", "the mode (heat, cool, or auto)")]),
   ("lock_door",
    [("door", "which door (front, back, garage, or side)"),
     ("state", "whether to lock or unlock it")]),
   ("get_device_status",
    [("device_type", "which device type (lights, thermostat, door, or all)"),
     ("room", "which room or location")]),
   ("set_scene",
    [("scene", "which scene (movie night, bedtime, morning, away, or party)")])]

/-- The `SCENE_DESCRIPTIONS` table of `main.py`. -/
def SCENE_DESCRIPTIONS : List (String × String) :=
  [("movie_night", "Living room lights dimmed, thermostat set to 72°F."),
   ("bedtime", "All lights off, doors locked, thermostat set to 68°F."),
   ("morning", "Kitchen and hallway lights on, thermostat set to 72°F."),
   ("away", "All lights off, all doors locked, thermostat set to 65°F."),
   ("party", "Living room and kitchen lights on, thermostat set to 70°F.")]

/-- The `ROOM_DISPLAY` table of `main.py`. -/
def ROOM_DISPLAY : List (String × String) :=
  [("living_room", "living room"),
   ("bedroom", "bedroom"),
   ("kitchen", "kitchen"),
   ("bathroom", "bathroom"),
   ("office", "office"),
   ("hallway", "hallway")]

/-- A response template, split into literal segments and named placeholders
(the compiled form of a Python format string). -/
inductive Tmpl where
  | lit (s : String)
  | var (k : String)
deriving DecidableEq, Repr

/-- The `SUCCESS_TEMPLATES` table of `main.py`, each format string split at its
placeholders. -/
def SUCCESS_TEMPLATES : List (String × List Tmpl) :=
  [("toggle_lights",
    [.lit "Done. The ", .var "display_room", .lit " lights are now ", .var "state", .lit "."]),
   ("set_thermostat",
    [.lit "Done. Thermostat set to ", .var "temperature", .lit "°F", .var "mode_suffix", .lit "."]),
   ("lock_door",
    [.lit "Done. The ", .var "door", .lit " door is now ", .var "state", .lit "ed."]),
   ("get_device_status", [.var "status_report"]),
   ("set_scene",
    [.lit "Done. \"", .var "scene", .lit "\" scene activated. ", .var "scene_details"]),
   ("intent_unclear", [])]

/-- Python `str.format` over a compiled template: each placeholder is looked up in
the keyword environment; a missing key is Python's `KeyError`, modelled as
`none`. -/
def formatTmpl (tmpl : List Tmpl) (env : String → Option String) : Option String :=
  match tmpl with
  | [] => some ""
  | .lit s :: rest => (formatTmpl rest env).map (s ++ ·)
  | .var k :: rest =>
    match env k with
    | none => none
    | some v => (formatTmpl rest env).map (v ++ ·)

/-! ## Dialogue orchestrator (`TextOrchestrator` of `src/python/main.py`)

The completion endpoint and the random module are effects; they enter the
model as explicit inputs.  `process_utterance` takes the completion client's
result for the turn (the code stores it in `last_function_call`) and a
record of the random draws used by the simulated backend. -/

/-- Result of `SLMClient.invoke` as consumed by the orchestrator: a parsed
function call (name and argument mapping) or the raw-failure string. -/
inductive SLMResult where
  | call (name : String) (arguments : Arguments)
  | failure (raw : String)

/-- One message of `conversation_history`: a user turn, an assistant turn
carrying a single tool call (arguments serialized to JSON), or an assistant
text turn (possibly the empty-string placeholder). -/
inductive Turn where
  | user (text : String)
  | assistantToolCall (name : String) (argsJSON : String)
  | assistantText (text : String)
deriving DecidableEq, Repr

/-- The random draws consumed by `_simulate_device_status`: one record per
draw site (`random.choice` / `random.randint`). -/
structure SimRng where
  lightsOn : Bool      -- `random.choice(["on", "off"])`, `true` ↦ `"on"`
  thermoTemp : Nat     -- `random.randint(65, 75)` in the thermostat branch
  thermoMode : Fin 3   -- `random.choice(["heat", "cool", "auto"])`
  doorLocked : Bool    -- `random.choice(["locked", "unlocked"])`
  allTemp : Nat        -- `random.randint(65, 75)` in the catch-all branch

/-- Python `arguments.get(arg)` on a dict: `none` when the key is absent. -/
def argGet (arguments : Arguments) (key : String) : Option PyVal :=
  arguments.lookup key

/-- Model of `TextOrchestrator.get_missing_args`: the required arguments of the
function (unknown name ⇒ `[]`) whose value `is None` — i.e. the key is
absent or its value is JSON `null`. -/
def get_missing_args (function_name : String) (arguments : Arguments) : List String :=
  let required := (FUNCTION_REQUIRED_ARGS.lookup function_name).getD []
  required.filter fun arg =>
    match argGet arguments arg with
    | none => true
    | some .null => true
    | some _ => false

/-- Model of `TextOrchestrator.generate_clarification_response`: the fixed message
listing the capability categories, comma-joined. -/
def generate_clarification_response : String :=
  "I didn't quite understand that. Could you tell me what you need? " ++
  "I can help you " ++
  String.intercalate ", "
    ["control lights", "set the thermostat", "lock or unlock doors",
     "check device status", "or activate scenes"] ++ "."

/-- The elicitation phrase for one argument of a function:
`individual.get(arg, f"the {arg.replace('_', ' ')}")` over
`INDIVIDUAL_SLOT_PROMPTS.get(function, {})` — the schema's phrase, else
`"the "` followed by the argument name with underscores replaced by
spaces. -/
def phraseFor (function arg : String) : String :=
  (((INDIVIDUAL_SLOT_PROMPTS.lookup function).getD []).lookup arg).getD
    ("the " ++ String.mk (arg.data.map fun c => if c = '_' then ' ' else c))

/-- Model of `TextOrchestrator.generate_slot_elicitation`: the per-slot phrases,
one question for a single slot, otherwise the comma-join of all but the
last followed by `", and "` and the last. -/
def generate_slot_elicitation (function : String) (missing_args : List String) : String :=
  let questions := missing_args.map (phraseFor function)
  if questions.length = 1 then
    "Could you provide " ++ (questions.headD "") ++ "?"
  else
    "Could you provide " ++ String.intercalate ", " questions.dropLast ++
    ", and " ++ (questions.getLast?.getD "") ++ "?"

/-- Model of `TextOrchestrator._simulate_device_status`, with the random draws taken
from `rng`. -/
def simulate_device_status (arguments : Arguments) (rng : SimRng) : String :=
  let device_type := (argGet arguments "device_type").getD (.str "all")
  let room := (argGet arguments "room").getD (.str "")
  if device_type.eqStr "lights" then
    let state := if rng.lightsOn then "on" else "off"
    let display :=
      if room.truthy then (ROOM_DISPLAY.lookup room.pyStr).getD room.pyStr else "the"
    "The " ++ display ++ " lights are currently " ++ state ++ "."
  else if device_type.eqStr "thermostat" then
    let mode := ["heat", "cool", "auto"].get rng.thermoMode
    "The thermostat is set to " ++ toString rng.thermoTemp ++ "°F in " ++ mode ++ " mode."
  else if device_type.eqStr "door" then
    let door := if room.truthy then room.pyStr else "front"
    let state := if rng.doorLocked then "locked" else "unlocked"
    "The " ++ door ++ " door is currently " ++ state ++ "."
  else
    "Lights: mixed (some on, some off). Thermostat: " ++ toString rng.allTemp ++
    "°F. Doors: front locked, back locked, garage unlocked."

/-- Model of `TextOrchestrator.call_backend_api`: the simulated backend, returning
the extra template fields for the function. -/
def call_backend_api (function : String) (arguments : Arguments) (rng : SimRng) :
    List (String × String) :=
  if function = "toggle_lights" then
    let room := (argGet arguments "room").getD (.str "")
    [("display_room", (ROOM_DISPLAY.lookup room.pyStr).getD room.pyStr)]
  else if function = "set_thermostat" then
    let mode := argGet arguments "mode"
    let suffix :=
      match mode with
      | some m => if m.truthy then " in " ++ m.pyStr ++ " mode" else ""
      | none => ""
    [("mode_suffix", suffix)]
  else if function = "get_device_status" then
    [("status_report", simulate_device_status arguments rng)]
  else if function = "set_scene" then
    let scene := (argGet arguments "scene").getD (.str "")
    [("scene_details", (SCENE_DESCRIPTIONS.lookup scene.pyStr).getD "")]
  else
    []

/-- The keyword environment of `template.format(**arguments, **api_result)`:
backend fields and the call's own arguments rendered with `str()`.  This
environment is only consulted when the two keyword sets are disjoint: a
duplicate keyword makes Python raise `TypeError` before `format` runs
(modelled by `kwargsCollide` in `execute_and_respond`), so the lookup
order here is immaterial. -/
def formatEnv (arguments : Arguments) (api_result : List (String × String)) :
    String → Option String := fun k =>
  match api_result.lookup k with
  | some v => some v
  | none => (argGet arguments k).map PyVal.pyStr

/-- Keyword collision between the call's own arguments and the
backend-contributed fields: `template.format(**arguments, **api_result)`
raises `TypeError: got multiple values for keyword argument` when any key
of `api_result` is also a key of `arguments`. -/
def kwargsCollide (arguments : Arguments) (api_result : List (String × String)) : Bool :=
  api_result.any fun kv => (argGet arguments kv.1).isSome

/-- Model of `TextOrchestrator.execute_and_respond`: one backend call, then the
function's success template (default `"Done."`) rendered over the merged
keyword environment.  `none` models an uncaught exception from the
`format` line: the duplicate-keyword `TypeError` when an argument key
collides with a backend-contributed field, or a `KeyError` for an
unfilled placeholder. -/
def execute_and_respond (function : String) (arguments : Arguments) (rng : SimRng) :
    Option String :=
  if kwargsCollide arguments (call_backend_api function arguments rng) then
    none
  else
    formatTmpl ((SUCCESS_TEMPLATES.lookup function).getD [.lit "Done."])
      (formatEnv arguments (call_backend_api function arguments rng))

/-- Model of `TextOrchestrator.handle_function_call`, also reporting the backend
dispatches it performed as a list of `(function, arguments)` pairs. -/
def handle_function_call (function_call : SLMResult) (rng : SimRng) :
    Option String × List (String × Arguments) :=
  match function_call with
  | .failure _ => (some generate_clarification_response, [])  -- not reached from process_utterance
  | .call name arguments =>
    if name = "intent_unclear" then
      (some generate_clarification_response, [])
    else
      let missing := get_missing_args name arguments
      if missing.isEmpty then
        (execute_and_respond name arguments rng, [(name, arguments)])
      else
        (some (generate_slot_elicitation name missing), [])

/-- Mutable state of a `TextOrchestrator` instance. -/
structure OrchState where
  conversation_history : List Turn
  last_function_call : Option SLMResult
  last_latency_ms : Nat

/-- The state of a freshly constructed (or `reset`) orchestrator. -/
def OrchState.initial : OrchState := ⟨[], none, 0⟩

/-- Model of `TextOrchestrator.reset`. -/
def reset (_st : OrchState) : OrchState := OrchState.initial

/-- Outcome of one `process_utterance` call: the end-of-session `None`, a
bot reply string, or an uncaught exception (a `KeyError` escaping
`str.format`). -/
inductive TurnOutcome where
  | sessionEnd
  | reply (text : String)
  | crash
deriving DecidableEq, Repr

/-- Model of `TextOrchestrator.process_utterance`: the full turn.  `slm` is what
`self.slm.invoke` returns for this turn (with its latency), `rng` the random
draws of the simulated backend.  Returns the outcome, the new state, and
the backend dispatches performed. -/
def process_utterance (st : OrchState) (transcript : String)
    (slm : SLMResult × Nat) (rng : SimRng) :
    TurnOutcome × OrchState × List (String × Arguments) :=
  if pyLower transcript = "quit" ∨ pyLower transcript = "exit" then
    (.sessionEnd, st, [])
  else
    -- 1. Append user turn; 2. call SLM, record it.
    let hist₁ := st.conversation_history ++ [.user transcript]
    let st₁ : OrchState := ⟨hist₁, some slm.1, slm.2⟩
    match slm.1 with
    | .failure _raw =>
      -- 3. No valid call: empty assistant placeholder, clarification reply.
      (.reply generate_clarification_response,
       ⟨hist₁ ++ [.assistantText ""], st₁.last_function_call, st₁.last_latency_ms⟩, [])
    | .call name arguments =>
      -- 4. Record the assistant tool-call turn.
      let hist₂ := hist₁ ++ [.assistantToolCall name (PyVal.dump (.dict arguments))]
      -- 5. Route through orchestrator logic, append the response.
      match handle_function_call (.call name arguments) rng with
      | (some response, dispatches) =>
        (.reply response,
         ⟨hist₂ ++ [.assistantText response], st₁.last_function_call, st₁.last_latency_ms⟩,
         dispatches)
      | (none, dispatches) =>
        (.crash, ⟨hist₂, st₁.last_function_call, st₁.last_latency_ms⟩, dispatches)

/-! ## Completion client (`SLMClient` of `src/python/main.py`)

`json.loads` is modelled by an executable recursive-descent parser over the
JSON subset the system exchanges (null, booleans, integers, plain strings,
arrays, objects); parse failure is `none` (Python's `JSONDecodeError`). -/

/-- Numeric value of one hexadecimal digit. -/
def hexVal (c : Char) : Option Nat :=
  if '0' ≤ c ∧ c ≤ '9' then some (c.toNat - '0'.toNat)
  else if 'a' ≤ c ∧ c ≤ 'f' then some (c.toNat - 'a'.toNat + 10)
  else if 'A' ≤ c ∧ c ≤ 'F' then some (c.toNat - 'A'.toNat + 10)
  else none

/-- The character named by a JSON short escape (`\"`, `\\`, `\/`, `\b`,
`\f`, `\n`, `\r`, `\t`); any other escape letter is a decode error. -/
def escChar : Char → Option Char
  | '"' => some '"'
  | '\\' => some '\\'
  | '/' => some '/'
  | 'b' => some (Char.ofNat 8)
  | 'f' => some (Char.ofNat 12)
  | 'n' => some '\n'
  | 'r' => some '\r'
  | 't' => some '\t'
  | _ => none

/-- Rest of a JSON string literal after its opening quote, with JSON escape
processing: short escapes, `\uXXXX` (each unit decoded separately — the
recombination of surrogate pairs is not modelled; no claim uses non-BMP
escapes), an invalid escape or a raw control character is a decode error,
as in Python's strict `json.loads`. -/
def parseStringLit : List Char → Option (String × List Char)
  | [] => none
  | '"' :: cs => some ("", cs)
  | '\\' :: cs =>
    (match cs with
     | 'u' :: h₁ :: h₂ :: h₃ :: h₄ :: rest =>
       (match hexVal h₁, hexVal h₂, hexVal h₃, hexVal h₄ with
        | some a, some b, some c, some d =>
          (parseStringLit rest).map fun (s, r) =>
            (String.mk (Char.ofNat (((a * 16 + b) * 16 + c) * 16 + d) :: s.data), r)
        | _, _, _, _ => none)
     | c :: rest =>
       (match escChar c with
        | some ch => (parseStringLit rest).map fun (s, r) => (String.mk (ch :: s.data), r)
        | none => none)
     | [] => none)
  | c :: cs =>
    if c.toNat < 32 then none
    else (parseStringLit cs).map fun (s, r) => (String.mk (c :: s.data), r)

/-- Leading run of decimal digits, split off. -/
def takeDigits (cs : List Char) : List Char × List Char :=
  (cs.takeWhile Char.isDigit, cs.dropWhile Char.isDigit)

/-- Decimal digits to their value. -/
def digitsToNat (ds : List Char) : Nat :=
  ds.foldl (fun acc c => acc * 10 + (c.toNat - '0'.toNat)) 0

/-- The integer part of a JSON number: `0`, or a nonzero digit followed by
digits; a leading zero followed by another digit is a decode error, as in
the JSON grammar. -/
def parseIntDigits : List Char → Option (List Char × List Char)
  | '0' :: c :: rest => if c.isDigit then none else some (['0'], c :: rest)
  | ['0'] => some (['0'], [])
  | c :: rest =>
    if c.isDigit then
      let (ds, rest') := takeDigits rest
      some (c :: ds, rest')
    else none
  | [] => none

/-- An optional fraction part: `.` followed by at least one digit (the
returned characters include the dot); `([], cs)` when absent. -/
def parseFrac : List Char → Option (List Char × List Char)
  | '.' :: rest =>
    (match takeDigits rest with
     | ([], _) => none
     | (ds, rest') => some ('.' :: ds, rest'))
  | cs => some ([], cs)

/-- An optional exponent part: `e`/`E`, an optional sign, and at least one
digit; `([], cs)` when absent. -/
def parseExp : List Char → Option (List Char × List Char)
  | c :: rest =>
    if c = 'e' ∨ c = 'E' then
      match rest with
      | s :: rest' =>
        if s = '+' ∨ s = '-' then
          match takeDigits rest' with
          | ([], _) => none
          | (ds, rest'') => some (c :: s :: ds, rest'')
        else
          (match takeDigits rest with
           | ([], _) => none
           | (ds, rest'') => some (c :: ds, rest''))
      | [] => none
    else some ([], c :: rest)
  | [] => some ([], [])

/-- A JSON number (after an optional leading `-`, signalled by `neg`),
following Python's `json.loads`: the JSON grammar plus the `Infinity`
constant; a number with a fraction or exponent becomes a `float` carrying
its literal, an integer becomes `int`. -/
def parseNumber (neg : Bool) (cs : List Char) : Option (PyVal × List Char) :=
  match cs with
  | 'I' :: 'n' :: 'f' :: 'i' :: 'n' :: 'i' :: 't' :: 'y' :: rest =>
    some (.float (if neg then "-Infinity" else "Infinity"), rest)
  | _ =>
    match parseIntDigits cs with
    | none => none
    | some (ds, rest) =>
      match parseFrac rest with
      | none => none
      | some (fs, rest₁) =>
        match parseExp rest₁ with
        | none => none
        | some (es, rest₂) =>
          if fs = [] ∧ es = [] then
            let n : Int := Int.ofNat (digitsToNat ds)
            some (.int (if neg then -n else n), rest₂)
          else
            some (.float (String.mk ((if neg then ['-'] else []) ++ ds ++ fs ++ es)), rest₂)

/-- Insertion into a Python dict under construction: an existing key keeps
its position but takes the new value. -/
def insertKV (kvs : List (String × PyVal)) (k : String) (v : PyVal) :
    List (String × PyVal) :=
  match kvs with
  | [] => [(k, v)]
  | (k', v') :: rest => if k' = k then (k', v) :: rest else (k', v') :: insertKV rest k v

/-- Python dict construction from parsed object members: duplicate keys
keep their first position and their *last* value, as `json.loads` does. -/
def buildDict (pairs : List (String × PyVal)) : List (String × PyVal) :=
  pairs.foldl (fun acc kv => insertKV acc kv.1 kv.2) []

mutual

/-- One JSON value, fuel-bounded. -/
def parseVal : Nat → List Char → Option (PyVal × List Char)
  | 0, _ => none
  | fuel + 1, input =>
    match dropWs input with
    | '"' :: cs => (parseStringLit cs).map fun (s, r) => (PyVal.str s, r)
    | 'n' :: 'u' :: 'l' :: 'l' :: cs => some (.null, cs)
    | 't' :: 'r' :: 'u' :: 'e' :: cs => some (.bool true, cs)
    | 'f' :: 'a' :: 'l' :: 's' :: 'e' :: cs => some (.bool false, cs)
    | '[' :: cs =>
      (match dropWs cs with
       | ']' :: rest => some (.list [], rest)
       | cs' => (parseArrayItems fuel cs').map fun (xs, r) => (PyVal.list xs, r))
    | '\x7b' :: cs =>
      (match dropWs cs with
       | '\x7d' :: rest => some (.dict [], rest)
       | cs' => (parseObjItems fuel cs').map fun (xs, r) => (PyVal.dict (buildDict xs), r))
    | '-' :: cs => parseNumber true cs
    | 'N' :: 'a' :: 'N' :: cs => some (.float "NaN", cs)
    | c :: cs =>
      if c.isDigit ∨ c = 'I' then parseNumber false (c :: cs)
      else none
    | [] => none

/-- One or more comma-separated array items followed by `]`. -/
def parseArrayItems : Nat → List Char → Option (List PyVal × List Char)
  | 0, _ => none
  | fuel + 1, input =>
    match parseVal fuel input with
    | none => none
    | some (v, rest) =>
      match dropWs rest with
      | ',' :: rest' => (parseArrayItems fuel rest').map fun (xs, r) => (v :: xs, r)
      | ']' :: rest' => some ([v], rest')
      | _ => none

/-- One or more comma-separated object members followed by `}`. -/
def parseObjItems : Nat → List Char → Option (List (String × PyVal) × List Char)
  | 0, _ => none
  | fuel + 1, input =>
    match dropWs input with
    | '"' :: cs =>
      match parseStringLit cs with
      | none => none
      | some (k, rest) =>
        match dropWs rest with
        | ':' :: rest' =>
          match parseVal fuel rest' with
          | none => none
          | some (v, rest'') =>
            match dropWs rest'' with
            | ',' :: rest''' => (parseObjItems fuel rest''').map fun (xs, r) => ((k, v) :: xs, r)
            | '\x7d' :: rest''' => some ([(k, v)], rest''')
            | _ => none
        | _ => none
    | _ => none

end

/-- Test `startsWithChars pat s`: `pat` is an initial segment of `s`. -/
def startsWithChars : List Char → List Char → Bool
  | [], _ => true
  | _ :: _, [] => false
  | p :: ps, c :: cs => p == c && startsWithChars ps cs

/-- Test `containsChars pat s`: `pat` occurs contiguously somewhere in `s`. -/
def containsChars (pat : List Char) : List Char → Bool
  | [] => startsWithChars pat []
  | c :: cs => startsWithChars pat (c :: cs) || containsChars pat cs

/-- Python's substring test `pat in s`. -/
def strContains (s pat : String) : Bool := containsChars pat.data s.data

/-- The interactive loop of `main()` in `main.py`, driven by a script: each
entry provides the raw input line, the completion result of the turn, and
the backend's random draws.  Empty (stripped) inputs are skipped; the loop
breaks as soon as `process_utterance` signals the end of the session. -/
def runSession (st : OrchState) :
    List (String × (SLMResult × Nat) × SimRng) → OrchState
  | [] => st
  | (input, slm, rng) :: rest =>
    if pyStrip input = "" then runSession st rest
    else
      match process_utterance st (pyStrip input) slm rng with
    | (.sessionEnd, st', _) => st'
    | (.reply _, st', _) => runSession st' rest
    | (.crash, st', _) => st'

/-- An attempt outcome that triggers a retry while attempts remain: an HTTP
response with status ≥ 500, or a transport-level exception. -/
def retryEligible (o : AttemptOutcome) : Prop :=
  (∃ status body, o = .http status body ∧ 500 ≤ status) ∨ ∃ msg, o = .transportError msg

/-- Spec-side formatting for the amended C3: phrases joined with `", "`,
with `", and "` (comma included) before the last when there are at least
two. -/
def joinAnd : List String → String
  | [] => ""
  | [q] => q
  | [q₁, q₂] => q₁ ++ ", and " ++ q₂
  | q :: qs => q ++ ", " ++ joinAnd qs

/-- Any run of the attempt loop terminates on an attempt number bounded by
`attempt - 1 + fuel`. -/
theorem executeLoop_attempts_le (request_id : String) (outcomes : Nat → AttemptOutcome) :
    ∀ fuel attempt lastError,
      (executeLoop request_id outcomes fuel attempt lastError).2 ≤ attempt - 1 + fuel := by
  intro fuel
  induction fuel with
  | zero => intro attempt lastError; simp [executeLoop]
  | succ n ih =>
    intro attempt lastError
    unfold executeLoop
    cases h : outcomes attempt with
    | http status body =>
      dsimp only
      split
      · dsimp only; omega
      · split
        · exact le_trans (ih (attempt + 1) _) (by omega)
        · dsimp only; omega
    | transportError msg =>
      dsimp only
      split
      · exact le_trans (ih (attempt + 1) msg) (by omega)
      · dsimp only; omega

/-- Claim C5 — For every sequence of HTTP outcomes the dispatcher makes at
most 3 delivery attempts; a first response that is non-2xx with status below
500 (e.g. 404) terminates immediately as a failure after exactly 1 attempt;
and facing permanent 500 responses it attempts exactly 3 times and returns
`ok = false`. -/
theorem C5_retry_bounds (request_id : String) (outcomes : Nat → AttemptOutcome) :
    (execute_action request_id outcomes).2 ≤ 3 ∧
    (∀ status body, outcomes 1 = .http status body → ¬(200 ≤ status ∧ status < 300) →
      status < 500 →
      execute_action request_id outcomes =
        (⟨false, some status, "HTTP " ++ toString status, request_id, some body⟩, 1)) ∧
    (∀ bodies : Nat → RespBody, (∀ n, outcomes n = .http 500 (bodies n)) →
      (execute_action request_id outcomes).1.ok = false ∧
      (execute_action request_id outcomes).2 = 3) := by
  refine ⟨executeLoop_attempts_le request_id outcomes 3 1 "unknown_error", ?_, ?_⟩
  · intro status body h1 h2xx hlt
    unfold execute_action executeLoop
    rw [h1]
    have : ¬(500 ≤ status ∧ 1 ≤ MAX_RETRIES) := by
      unfold MAX_RETRIES; omega
    simp [h2xx, this]
  · intro bodies hall
    have hres : execute_action request_id outcomes =
        (⟨false, some 500, "HTTP " ++ toString 500, request_id, some (bodies 3)⟩, 3) := by
      show executeLoop request_id outcomes (0 + 1 + 1 + 1) 1 "unknown_error" = _
      rw [executeLoop, hall 1]
      norm_num [MAX_RETRIES]
      rw [executeLoop, hall 2]
      norm_num [MAX_RETRIES]
      rw [executeLoop, hall 3]
      norm_num [MAX_RETRIES]
    rw [hres]
    exact ⟨rfl, rfl⟩

/-- Claim C5 witness — concrete instances: a permanent-404 dispatcher fails
after exactly 1 attempt, a permanent-500 dispatcher after exactly 3 with
`ok = false`. -/
theorem C5_retry_bounds_witness :
    (execute_action "r" fun _ => .http 404 (.text "nope")).2 = 1 ∧
    (execute_action "r" fun _ => .http 500 (.text "boom")).1.ok = false ∧
    (execute_action "r" fun _ => .http 500 (.text "boom")).2 = 3 := by
  refine ⟨?_, ?_, ?_⟩
  · have := (C5_retry_bounds "r" fun _ => .http 404 (.text "nope")).2.1 404 (.text "nope")
      rfl (by decide) (by decide)
    rw [this]
  · exact ((C5_retry_bounds "r" fun _ => .http 500 (.text "boom")).2.2
      (fun _ => .text "boom") (fun _ => rfl)).1
  · exact ((C5_retry_bounds "r" fun _ => .http 500 (.text "boom")).2.2
      (fun _ => .text "boom") (fun _ => rfl)).2

/-- Claim C6 counterexample — a dispatcher facing permanent 500 responses
exhausts all 3 attempts without a success, yet the result's `status_code`
is `500` (not `null`) and the raw response body is retained (not absent):
the claim's description of every exhaustion is false on the code. -/
theorem C6_counterexample :
    ((execute_action "req-1" fun _ => .http 500 (.text "server error")).2 = 3) ∧
    ((execute_action "req-1" fun _ => .http 500 (.text "server error")).1.ok = false) ∧
    ((execute_action "req-1" fun _ => .http 500 (.text "server error")).1.status_code ≠ none) ∧
    ((execute_action "req-1" fun _ => .http 500 (.text "server error")).1.raw_response ≠ none) := by
  decide

/-- Claim C6 amended — when the first two attempts trigger retries and the
final (third) attempt also fails, the dispatcher returns `ok = false` after
exactly 3 attempts; if that final failure is a transport-level exception
(the loop exhausts via its `break`), the result carries `status_code =
null`, the last recorded error text, and no raw response — whereas if the
final attempt received a non-2xx HTTP response, the result instead carries
that status code and the raw body. -/
theorem C6_exhaustion (request_id : String) (outcomes : Nat → AttemptOutcome)
    (h1 : retryEligible (outcomes 1)) (h2 : retryEligible (outcomes 2)) :
    (∀ msg, outcomes 3 = .transportError msg →
      execute_action request_id outcomes = (⟨false, none, msg, request_id, none⟩, 3)) ∧
    (∀ status body, outcomes 3 = .http status body → ¬(200 ≤ status ∧ status < 300) →
      execute_action request_id outcomes =
        (⟨false, some status, "HTTP " ++ toString status, request_id, some body⟩, 3)) := by
  have step : ∀ fuel lastError attempt, attempt ≤ MAX_RETRIES →
      retryEligible (outcomes attempt) →
      ∃ msg', executeLoop request_id outcomes (fuel + 1) attempt lastError =
        executeLoop request_id outcomes fuel (attempt + 1) msg' := by
    intro fuel lastError attempt hle hel
    rcases hel with ⟨status, body, heq, h500⟩ | ⟨msg, heq⟩
    · refine ⟨"HTTP " ++ toString status, ?_⟩
      rw [executeLoop, heq]
      have h2xx : ¬(200 ≤ status ∧ status < 300) := by omega
      simp only [h2xx, if_false, h500, hle, and_self, if_true]
    · refine ⟨msg, ?_⟩
      rw [executeLoop, heq]
      simp only [hle, if_true]
  obtain ⟨m1, e1⟩ := step (0 + 1 + 1) "unknown_error" 1 (by decide) h1
  obtain ⟨m2, e2⟩ := step (0 + 1) m1 2 (by decide) h2
  constructor
  · intro msg h3
    show executeLoop request_id outcomes (0 + 1 + 1 + 1) 1 "unknown_error" = _
    rw [e1, e2, executeLoop, h3]
    have : ¬(3 ≤ MAX_RETRIES) := by decide
    simp only [this, if_false]
  · intro status body h3 h2xx
    show executeLoop request_id outcomes (0 + 1 + 1 + 1) 1 "unknown_error" = _
    rw [e1, e2, executeLoop, h3]
    have hnr : ¬(500 ≤ status ∧ 3 ≤ MAX_RETRIES) := by
      unfold MAX_RETRIES; omega
    simp only [h2xx, if_false, hnr]

/-- Claim C6 amended witness — two 503 responses followed by a third-attempt
timeout yield the exhaustion result with `status_code = null` and no raw
response. -/
theorem C6_exhaustion_witness :
    execute_action "r"
        (fun n => if n = 3 then .transportError "timeout" else .http 503 (.text "busy")) =
      (⟨false, none, "timeout", "r", none⟩, 3) := by
  exact (C6_exhaustion "r"
      (fun n => if n = 3 then .transportError "timeout" else .http 503 (.text "busy"))
      (Or.inl ⟨503, .text "busy", rfl, by omega⟩)
      (Or.inl ⟨503, .text "busy", rfl, by omega⟩)).1 "timeout" rfl

/-! ## Theorems: slot elicitation and missing arguments (claims C3, C4, C8) -/

/-- Claim C3 counterexample — with the two `lock_door` slots missing, the
question produced has a comma *before* the final `"and"`; the claim's
comma-free format is not what the code returns. -/
theorem C3_counterexample :
    generate_slot_elicitation "lock_door" ["door", "state"] =
      "Could you provide which door (front, back, garage, or side), and whether to lock or unlock it?" ∧
    generate_slot_elicitation "lock_door" ["door", "state"] ≠
      "Could you provide which door (front, back, garage, or side) and whether to lock or unlock it?" := by
  constructor
  · rfl
  · decide

/-- The accumulator form `String.intercalate.go` distributes over a prepended accumulator. -/
theorem intercalate_go_append (s : String) :
    ∀ as acc₁ acc₂, String.intercalate.go (acc₁ ++ acc₂) s as =
      acc₁ ++ String.intercalate.go acc₂ s as := by
  intro as
  induction as with
  | nil => intro acc₁ acc₂; rfl
  | cons a as ih =>
    intro acc₁ acc₂
    show String.intercalate.go (acc₁ ++ acc₂ ++ s ++ a) s as = _
    rw [String.append_assoc acc₁ acc₂ s, String.append_assoc acc₁ (acc₂ ++ s) a, ih]
    rfl

/-- Applying `String.intercalate` over a list with at least two elements peels its
head. -/
theorem intercalate_cons₂ (s a b : String) (l : List String) :
    String.intercalate s (a :: b :: l) = a ++ s ++ String.intercalate s (b :: l) := by
  show String.intercalate.go (a ++ s ++ b) s l = _
  rw [intercalate_go_append s l (a ++ s) b]
  rfl

/-- The code's `", ".join(qs[:-1]) + ", and " + qs[-1]` agrees with
`joinAnd` on lists of length ≥ 2. -/
theorem intercalate_dropLast_joinAnd :
    ∀ (t : List String) (a b : String),
      String.intercalate ", " (a :: b :: t).dropLast ++ ", and " ++
        ((a :: b :: t).getLast?.getD "") = joinAnd (a :: b :: t) := by
  intro t
  induction t with
  | nil => intro a b; rfl
  | cons c t ih =>
    intro a b
    have hdrop : (a :: b :: c :: t).dropLast = a :: (b :: c :: t).dropLast := rfl
    have hlast : (a :: b :: c :: t).getLast? = (b :: c :: t).getLast? := by
      simp [List.getLast?]
    rw [hdrop, hlast]
    have hd2 : (b :: c :: t).dropLast = b :: (c :: t).dropLast := rfl
    rw [hd2, intercalate_cons₂, ← hd2]
    rw [String.append_assoc, String.append_assoc, String.append_assoc]
    rw [← String.append_assoc (String.intercalate ", " (b :: c :: t).dropLast)]
    rw [ih b c]
    show a ++ (", " ++ joinAnd (b :: c :: t)) = joinAnd (a :: b :: c :: t)
    rw [← String.append_assoc]
    cases t <;> rfl

/-- Claim C3 amended — for every function and non-empty missing-argument
list, the elicitation question is `"Could you provide "` followed by the
per-slot phrases (schema phrase, or the `"the {name with underscores →
spaces}"` fallback) joined with `", "` and a final `", and "` — i.e. a
comma *is* placed before the final `"and"` — then `"?"`. -/
theorem C3_elicitation_format (function : String) (missing_args : List String)
    (h : missing_args ≠ []) :
    generate_slot_elicitation function missing_args =
      "Could you provide " ++ joinAnd (missing_args.map (phraseFor function)) ++ "?" := by
  cases hm : missing_args.map (phraseFor function) with
  | nil => exact absurd (List.map_eq_nil_iff.mp hm) h
  | cons q qs =>
    unfold generate_slot_elicitation
    rw [hm]
    cases qs with
    | nil => rfl
    | cons q₂ qs₂ =>
      have hlen : ((q :: q₂ :: qs₂).length = 1) = False := by simp
      simp only [hlen, if_false]
      rw [String.append_assoc "Could you provide "
            (String.intercalate ", " ((q :: q₂ :: qs₂).dropLast)) ", and ",
          String.append_assoc "Could you provide " _ ((q :: q₂ :: qs₂).getLast?.getD ""),
          intercalate_dropLast_joinAnd qs₂ q q₂]

/-- Claim C3 amended witness — both `toggle_lights` slots missing yields the
joined two-phrase question. -/
theorem C3_elicitation_format_witness :
    (["room", "state"] : List String) ≠ [] ∧
    generate_slot_elicitation "toggle_lights" ["room", "state"] =
      "Could you provide " ++ joinAnd (["room", "state"].map (phraseFor "toggle_lights")) ++ "?" :=
  ⟨by decide, C3_elicitation_format "toggle_lights" ["room", "state"] (by decide)⟩

/-- Claim C4 — the missing-argument list is exactly the required arguments
(of the schema registry; unknown names have none) whose value is absent or
JSON `null`, kept in schema-declared order (it is a sublist of the declared
required list); arguments bound to `0`, `""` or `false` are present, never
missing. -/
theorem C4_missing_args (name : String) (args : Arguments) :
    List.Sublist (get_missing_args name args)
      ((FUNCTION_REQUIRED_ARGS.lookup name).getD []) ∧
    (∀ a, a ∈ get_missing_args name args ↔
      a ∈ (FUNCTION_REQUIRED_ARGS.lookup name).getD [] ∧
        (argGet args a = none ∨ argGet args a = some .null)) ∧
    (∀ a, a ∈ (FUNCTION_REQUIRED_ARGS.lookup name).getD [] →
      (argGet args a = some (.int 0) ∨ argGet args a = some (.str "") ∨
        argGet args a = some (.bool false)) →
      a ∉ get_missing_args name args) := by
  have hpred : ∀ a,
      ((match argGet args a with
        | none => true
        | some .null => true
        | some _ => false) = true) ↔
      (argGet args a = none ∨ argGet args a = some PyVal.null) := by
    intro a
    cases h : argGet args a with
    | none => simp
    | some v => cases v <;> simp
  refine ⟨List.filter_sublist _, ?_, ?_⟩
  · intro a
    unfold get_missing_args
    rw [List.mem_filter]
    exact and_congr_right fun _ => hpred a
  · intro a _ha hv hmem
    unfold get_missing_args at hmem
    rw [List.mem_filter] at hmem
    rcases (hpred a).mp hmem.2 with hnone | hnull
    · rcases hv with h' | h' | h' <;> rw [h'] at hnone <;> exact Option.noConfusion hnone
    · rcases hv with h' | h' | h' <;> rw [h'] at hnull <;>
        exact PyVal.noConfusion (Option.some.inj hnull)

/-- Claim C4 witness — for `toggle_lights` with only `state` supplied, `room`
is missing (it is a required argument with no value) and a `temperature`
of `0` is not missing for `set_thermostat`. -/
theorem C4_missing_args_witness :
    "room" ∈ get_missing_args "toggle_lights" [("state", PyVal.str "on")] ∧
    "temperature" ∉ get_missing_args "set_thermostat" [("temperature", PyVal.int 0)] :=
  ⟨((C4_missing_args "toggle_lights" [("state", PyVal.str "on")]).2.1 "room").mpr
      ⟨by decide, Or.inl rfl⟩,
   (C4_missing_args "set_thermostat" [("temperature", PyVal.int 0)]).2.2 "temperature"
      (by decide) (Or.inl rfl)⟩

/-- Claim C8 — a function name absent from the schema registry yields an
empty required set, hence an empty missing list, and `handle_function_call`
goes straight to execution, dispatching exactly the supplied arguments to
the backend with no elicitation. -/
theorem C8_unknown_function (name : String) (args : Arguments) (rng : SimRng)
    (h : FUNCTION_REQUIRED_ARGS.lookup name = none) :
    get_missing_args name args = [] ∧
    handle_function_call (.call name args) rng =
      (execute_and_respond name args rng, [(name, args)]) := by
  have hmiss : get_missing_args name args = [] := by
    unfold get_missing_args
    rw [h]
    rfl
  refine ⟨hmiss, ?_⟩
  have hname : name ≠ "intent_unclear" := by
    intro e
    rw [e] at h
    exact absurd h (by decide)
  unfold handle_function_call
  simp [hname, hmiss]

/-- Claim C8 witness — `play_music` is not in the registry; its call is
executed immediately with the supplied argument. -/
theorem C8_unknown_function_witness :
    get_missing_args "play_music" [("song", PyVal.str "jazz")] = [] ∧
    handle_function_call (.call "play_music" [("song", PyVal.str "jazz")])
        ⟨true, 70, 0, true, 70⟩ =
      (execute_and_respond "play_music" [("song", PyVal.str "jazz")] ⟨true, 70, 0, true, 70⟩,
       [("play_music", [("song", PyVal.str "jazz")])]) :=
  C8_unknown_function "play_music" [("song", PyVal.str "jazz")] ⟨true, 70, 0, true, 70⟩ rfl

/-! ## Theorems: history shape and session termination (claims C1, C9) -/

/-- Claim C1 counterexample — a `toggle_lights` call with *no* arguments (so
both required slots are missing) is nevertheless appended to history as an
assistant tool-call turn, contradicting the claim that partially specified
calls never enter history as tool-call turns. -/
theorem C1_counterexample :
    get_missing_args "toggle_lights" [] ≠ [] ∧
    Turn.assistantToolCall "toggle_lights" "\x7b\x7d" ∈
      (process_utterance OrchState.initial "Turn on the lights"
        (.call "toggle_lights" [], 10) ⟨true, 70, 0, true, 70⟩).2.1.conversation_history := by
  decide

/-- Claim C1 amended — for every non-sentinel turn: an unparsable model
response appends the user turn and an *empty assistant text placeholder*;
a parsed function call — fully or partially specified alike — appends the
user turn, the assistant tool-call turn (arguments serialized as JSON) and
then the assistant text turn carrying the computed response. -/
theorem C1_history_shape (st : OrchState) (transcript : String) (ms : Nat) (rng : SimRng)
    (ht : ¬(pyLower transcript = "quit" ∨ pyLower transcript = "exit")) :
    (∀ raw, (process_utterance st transcript (.failure raw, ms) rng).2.1.conversation_history =
        st.conversation_history ++ [.user transcript, .assistantText ""]) ∧
    (∀ name args r, (handle_function_call (.call name args) rng).1 = some r →
      (process_utterance st transcript (.call name args, ms) rng).2.1.conversation_history =
        st.conversation_history ++
          [.user transcript, .assistantToolCall name (PyVal.dump (.dict args)),
           .assistantText r]) := by
  constructor
  · intro raw
    unfold process_utterance
    rw [if_neg ht]
    simp
  · intro name args r hr
    unfold process_utterance
    rw [if_neg ht]
    dsimp only
    rcases hp : handle_function_call (.call name args) rng with ⟨o, dsp⟩
    rw [hp] at hr
    dsimp only at hr
    subst hr
    simp

/-- Claim C1 amended witness — a raw failure appends exactly the user turn
and the empty placeholder to a fresh history. -/
theorem C1_history_shape_witness :
    (process_utterance OrchState.initial "hello" (.failure "no tool call", 3)
        ⟨true, 70, 0, true, 70⟩).2.1.conversation_history =
      OrchState.initial.conversation_history ++ [.user "hello", .assistantText ""] :=
  (C1_history_shape OrchState.initial "hello" 3 ⟨true, 70, 0, true, 70⟩ (by decide)).1
    "no tool call"

/-- Claim C9 counterexample — `process_utterance` itself enforces no terminal
state: after a `"quit"` turn (which returns the end signal and leaves the
state unchanged), a further direct call with non-sentinel text processes a
completely normal turn, producing a reply and a non-empty history. -/
theorem C9_counterexample :
    (process_utterance OrchState.initial "quit" (.failure "ignored", 0)
        ⟨true, 70, 0, true, 70⟩).2.1 = OrchState.initial ∧
    (process_utterance
        ((process_utterance OrchState.initial "quit" (.failure "ignored", 0)
            ⟨true, 70, 0, true, 70⟩).2.1)
        "Activate the party scene" (.call "set_scene" [("scene", PyVal.str "party")], 5)
        ⟨true, 70, 0, true, 70⟩).1 =
      .reply "Done. \"party\" scene activated. Living room and kitchen lights on, thermostat set to 70°F." ∧
    (process_utterance
        ((process_utterance OrchState.initial "quit" (.failure "ignored", 0)
            ⟨true, 70, 0, true, 70⟩).2.1)
        "Activate the party scene" (.call "set_scene" [("scene", PyVal.str "party")], 5)
        ⟨true, 70, 0, true, 70⟩).2.1.conversation_history ≠ [] := by
  refine ⟨rfl, rfl, by decide⟩

/-- Claim C9 amended — a case-insensitive `"quit"`/`"exit"` turn returns the
end-of-session signal without touching state or dispatching anything; the
session-termination guarantee lives in the *driver* loop, which stops at
that signal, so no scripted input after the sentinel is ever processed. -/
theorem C9_exit_sentinel (st : OrchState) (input : String) (slm : SLMResult × Nat)
    (rng : SimRng) (rest : List (String × (SLMResult × Nat) × SimRng))
    (hne : pyStrip input ≠ "")
    (h : pyLower (pyStrip input) = "quit" ∨ pyLower (pyStrip input) = "exit") :
    process_utterance st (pyStrip input) slm rng = (.sessionEnd, st, []) ∧
    runSession st ((input, slm, rng) :: rest) = st := by
  have h1 : process_utterance st (pyStrip input) slm rng = (.sessionEnd, st, []) := by
    unfold process_utterance
    rw [if_pos h]
  refine ⟨h1, ?_⟩
  unfold runSession
  rw [if_neg hne, h1]

/-- Claim C9 amended witness — a scripted session whose first input strips to
`" QUIT "` ends at once; the scripted follow-up turn is never processed. -/
theorem C9_exit_sentinel_witness :
    runSession OrchState.initial
      [(" QUIT ", (.failure "ignored", 0), ⟨true, 70, 0, true, 70⟩),
       ("Turn on the kitchen lights.",
        (.call "toggle_lights" [("room", PyVal.str "kitchen"), ("state", PyVal.str "on")], 1),
        ⟨true, 70, 0, true, 70⟩)] = OrchState.initial :=
  (C9_exit_sentinel OrchState.initial " QUIT " (.failure "ignored", 0) ⟨true, 70, 0, true, 70⟩
      [("Turn on the kitchen lights.",
        (.call "toggle_lights" [("room", PyVal.str "kitchen"), ("state", PyVal.str "on")], 1),
        ⟨true, 70, 0, true, 70⟩)]
      (by decide) (Or.inl (by decide))).2

/-! ## Theorems: backend nondeterminism (claim C10) -/

/-- Claim C10 — the reply to a fully specified `get_device_status` call is
drawn from the random source: two turns with identical state, transcript
and arguments but different random draws produce different replies. -/
theorem C10_status_nondeterminism :
    get_missing_args "get_device_status" [("device_type", PyVal.str "lights")] = [] ∧
    (process_utterance OrchState.initial "What about the lights?"
        (.call "get_device_status" [("device_type", PyVal.str "lights")], 0)
        ⟨true, 70, 0, true, 70⟩).1 ≠
      (process_utterance OrchState.initial "What about the lights?"
        (.call "get_device_status" [("device_type", PyVal.str "lights")], 0)
        ⟨false, 70, 0, true, 70⟩).1 :=
  ⟨rfl, by decide⟩

/-! ## Theorems: dispatch and verbatim rendering (claim C2) -/

/-- A list starts with itself followed by anything. -/
theorem startsWithChars_self_append (p rest : List Char) :
    startsWithChars p (p ++ rest) = true := by
  induction p with
  | nil => rfl
  | cons c cs ih => simp [startsWithChars, ih]

/-- A list contains itself followed by anything. -/
theorem containsChars_self_append (p rest : List Char) :
    containsChars p (p ++ rest) = true := by
  cases h : p ++ rest with
  | nil =>
    have hp : p = [] := (List.append_eq_nil.mp h).1
    subst hp
    rfl
  | cons c cs =>
    rw [containsChars, ← h, startsWithChars_self_append, Bool.true_or]

/-- Containment is preserved under prepending. -/
theorem containsChars_append_left (p l₁ l₂ : List Char) (h : containsChars p l₂ = true) :
    containsChars p (l₁ ++ l₂) = true := by
  induction l₁ with
  | nil => simpa
  | cons c cs ih => rw [List.cons_append, containsChars, ih, Bool.or_true]

/-- A string of the shape `pre ++ (mid ++ post)` contains `mid`. -/
theorem strContains_append (pre mid post : String) :
    strContains (pre ++ (mid ++ post)) mid = true := by
  unfold strContains
  rw [String.data_append, String.data_append]
  exact containsChars_append_left _ _ _ (containsChars_self_append _ _)

/-- Claim C2 counterexample — for the fully specified call
`toggle_lights(room="living_room", state="on")` exactly one dispatch
happens, but the rendered reply shows the *display* name `"living room"`
and does not contain the literal argument value `"living_room"`. -/
theorem C2_counterexample :
    get_missing_args "toggle_lights"
      [("room", PyVal.str "living_room"), ("state", PyVal.str "on")] = [] ∧
    execute_and_respond "toggle_lights"
        [("room", PyVal.str "living_room"), ("state", PyVal.str "on")]
        ⟨true, 70, 0, true, 70⟩ =
      some "Done. The living room lights are now on." ∧
    strContains "Done. The living room lights are now on." "living_room" = false := by
  decide

/-- Claim C2 amended — for every fully specified function call (name not the
`intent_unclear` sentinel, no missing required argument) exactly one
backend dispatch occurs, carrying exactly the supplied arguments; and the
rendered reply contains verbatim every argument value the response
template interpolates directly — `state` for `toggle_lights`, `temperature`
for `set_thermostat`, `door` and `state` for `lock_door`, `scene` for
`set_scene` — while the `room` argument is rendered via its display form.
The verbatim parts assume the call's arguments do not reuse a
backend-contributed keyword (`display_room`, `mode_suffix`,
`scene_details`): on such a collision `format(**arguments, **api_result)`
raises a duplicate-keyword `TypeError` and the turn crashes instead of
replying. -/
theorem C2_dispatch_and_verbatim :
    (∀ (st : OrchState) (t name : String) (args : Arguments) (ms : Nat) (rng : SimRng),
      ¬(pyLower t = "quit" ∨ pyLower t = "exit") → name ≠ "intent_unclear" →
      get_missing_args name args = [] →
      (process_utterance st t (.call name args, ms) rng).2.2 = [(name, args)]) ∧
    (∀ (args : Arguments) (d s : String) (rng : SimRng),
      argGet args "door" = some (.str d) → argGet args "state" = some (.str s) →
      ∃ reply, execute_and_respond "lock_door" args rng = some reply ∧
        strContains reply d = true ∧ strContains reply s = true) ∧
    (∀ (args : Arguments) (s : String) (rng : SimRng),
      argGet args "state" = some (.str s) → argGet args "display_room" = none →
      ∃ reply, execute_and_respond "toggle_lights" args rng = some reply ∧
        strContains reply s = true) ∧
    (∀ (args : Arguments) (n : Int) (rng : SimRng),
      argGet args "temperature" = some (.int n) → argGet args "mode_suffix" = none →
      ∃ reply, execute_and_respond "set_thermostat" args rng = some reply ∧
        strContains reply (toString n) = true) ∧
    (∀ (args : Arguments) (sc : String) (rng : SimRng),
      argGet args "scene" = some (.str sc) → argGet args "scene_details" = none →
      ∃ reply, execute_and_respond "set_scene" args rng = some reply ∧
        strContains reply sc = true) := by
  refine ⟨?_, ?_, ?_, ?_, ?_⟩
  · intro st t name args ms rng ht hname hmiss
    unfold process_utterance
    rw [if_neg ht]
    dsimp only
    have hh : handle_function_call (.call name args) rng =
        (execute_and_respond name args rng, [(name, args)]) := by
      unfold handle_function_call
      simp [hname, hmiss]
    rw [hh]
    rcases he : execute_and_respond name args rng with _ | rep <;> rfl
  · intro args d s rng hdoor hstate
    have hd : formatEnv args (call_backend_api "lock_door" args rng) "door" = some d := by
      show (argGet args "door").map PyVal.pyStr = some d
      rw [hdoor]
      rfl
    have hs : formatEnv args (call_backend_api "lock_door" args rng) "state" = some s := by
      show (argGet args "state").map PyVal.pyStr = some s
      rw [hstate]
      rfl
    refine ⟨"Done. The " ++ (d ++ (" door is now " ++ (s ++ ("ed." ++ "")))), ?_, ?_, ?_⟩
    · show formatTmpl
          [.lit "Done. The ", .var "door", .lit " door is now ", .var "state", .lit "ed."]
          (formatEnv args (call_backend_api "lock_door" args rng)) = _
      simp only [formatTmpl, hd, hs, Option.map_some', Option.map_none']
    · unfold strContains
      simp only [String.data_append]
      exact containsChars_append_left _ _ _ (containsChars_self_append _ _)
    · unfold strContains
      simp only [String.data_append]
      refine containsChars_append_left _ _ _ (containsChars_append_left _ _ _
        (containsChars_append_left _ _ _ (containsChars_self_append _ _)))
  · intro args s rng hstate hnocol
    have hs : formatEnv args (call_backend_api "toggle_lights" args rng) "state" = some s := by
      show (argGet args "state").map PyVal.pyStr = some s
      rw [hstate]
      rfl
    have hg : kwargsCollide args (call_backend_api "toggle_lights" args rng) = false := by
      show ((argGet args "display_room").isSome || false) = false
      rw [hnocol]
      rfl
    refine ⟨"Done. The " ++
        ((ROOM_DISPLAY.lookup ((argGet args "room").getD (.str "")).pyStr).getD
            ((argGet args "room").getD (.str "")).pyStr ++
          (" lights are now " ++ (s ++ ("." ++ "")))), ?_, ?_⟩
    · unfold execute_and_respond
      rw [hg]
      show formatTmpl
          [.lit "Done. The ", .var "display_room", .lit " lights are now ", .var "state",
           .lit "."]
          (formatEnv args (call_backend_api "toggle_lights" args rng)) = _
      have hdr : formatEnv args (call_backend_api "toggle_lights" args rng) "display_room" =
          some ((ROOM_DISPLAY.lookup ((argGet args "room").getD (.str "")).pyStr).getD
            ((argGet args "room").getD (.str "")).pyStr) := rfl
      simp only [formatTmpl, hdr, hs, Option.map_some', Option.map_none']
    · unfold strContains
      simp only [String.data_append]
      refine containsChars_append_left _ _ _ (containsChars_append_left _ _ _
        (containsChars_append_left _ _ _ (containsChars_self_append _ _)))
  · intro args n rng htemp hnocol
    have ht : formatEnv args (call_backend_api "set_thermostat" args rng) "temperature" =
        some (toString n) := by
      show (argGet args "temperature").map PyVal.pyStr = some (toString n)
      rw [htemp]
      rfl
    have hm : formatEnv args (call_backend_api "set_thermostat" args rng) "mode_suffix" =
        some (match argGet args "mode" with
              | some m => if m.truthy then " in " ++ m.pyStr ++ " mode" else ""
              | none => "") := rfl
    have hg : kwargsCollide args (call_backend_api "set_thermostat" args rng) = false := by
      show ((argGet args "mode_suffix").isSome || false) = false
      rw [hnocol]
      rfl
    refine ⟨"Done. Thermostat set to " ++ (toString n ++ ("°F" ++
        ((match argGet args "mode" with
          | some m => if m.truthy then " in " ++ m.pyStr ++ " mode" else ""
          | none => "") ++ ("." ++ "")))), ?_, ?_⟩
    · unfold execute_and_respond
      rw [hg]
      show formatTmpl
          [.lit "Done. Thermostat set to ", .var "temperature", .lit "°F", .var "mode_suffix",
           .lit "."]
          (formatEnv args (call_backend_api "set_thermostat" args rng)) = _
      simp only [formatTmpl, ht, hm, Option.map_some', Option.map_none']
    · unfold strContains
      simp only [String.data_append]
      exact containsChars_append_left _ _ _ (containsChars_self_append _ _)
  · intro args sc rng hscene hnocol
    have hsc : formatEnv args (call_backend_api "set_scene" args rng) "scene" = some sc := by
      show (argGet args "scene").map PyVal.pyStr = some sc
      rw [hscene]
      rfl
    have hdet : formatEnv args (call_backend_api "set_scene" args rng) "scene_details" =
        some ((SCENE_DESCRIPTIONS.lookup ((argGet args "scene").getD (.str "")).pyStr).getD "") :=
      rfl
    have hg : kwargsCollide args (call_backend_api "set_scene" args rng) = false := by
      show ((argGet args "scene_details").isSome || false) = false
      rw [hnocol]
      rfl
    refine ⟨"Done. \"" ++ (sc ++ ("\" scene activated. " ++
        ((SCENE_DESCRIPTIONS.lookup ((argGet args "scene").getD (.str "")).pyStr).getD "" ++ ""))),
      ?_, ?_⟩
    · unfold execute_and_respond
      rw [hg]
      show formatTmpl
          [.lit "Done. \"", .var "scene", .lit "\" scene activated. ", .var "scene_details"]
          (formatEnv args (call_backend_api "set_scene" args rng)) = _
      simp only [formatTmpl, hsc, hdet, Option.map_some', Option.map_none']
    · unfold strContains
      simp only [String.data_append]
      exact containsChars_append_left _ _ _ (containsChars_self_append _ _)

/-- Claim C2 amended witness — a fully specified `lock_door` call dispatches
once and its reply contains both literal argument values. -/
theorem C2_dispatch_and_verbatim_witness :
    (process_utterance OrchState.initial "Lock the garage door"
        (.call "lock_door" [("door", PyVal.str "garage"), ("state", PyVal.str "lock")], 2)
        ⟨true, 70, 0, true, 70⟩).2.2 =
      [("lock_door", [("door", PyVal.str "garage"), ("state", PyVal.str "lock")])] ∧
    (∃ reply, execute_and_respond "lock_door"
        [("door", PyVal.str "garage"), ("state", PyVal.str "lock")] ⟨true, 70, 0, true, 70⟩ =
          some reply ∧
        strContains reply "garage" = true ∧ strContains reply "lock" = true) :=
  ⟨C2_dispatch_and_verbatim.1 OrchState.initial "Lock the garage door" "lock_door"
      [("door", PyVal.str "garage"), ("state", PyVal.str "lock")] 2 ⟨true, 70, 0, true, 70⟩
      (by decide) (by decide) (by decide),
   C2_dispatch_and_verbatim.2.1 [("door", PyVal.str "garage"), ("state", PyVal.str "lock")]
      "garage" "lock" ⟨true, 70, 0, true, 70⟩ rfl rfl⟩

/-! ## Theorems: completion client failure policy (claim C7) -/

end FG
